import Mathlib

/-!
Verification of `api/libs/oauth_data_source.py` (class `NotionOAuth`).

Shallow embedding notes:
- Provider JSON payloads are modelled by the inductive `Json`.  The Python
  dynamic operations that the module performs on those payloads (subscription
  `d[k]`, the `in` membership test, `len`, `.get`, truthiness, item
  assignment) are modelled by `Except`-valued functions that return
  `Except.error` exactly where the Python operation raises
  (`KeyError`/`TypeError`/`IndexError`), on the value shapes these operations
  can meet here.
- Network calls (`requests.post`) are modelled by passing their parsed
  results as parameters: `response_json` for the token endpoint,
  `page_results`/`database_results` for the two search calls.
- The binding store (`DataSourceBinding` rows reachable through the query
  filters used by this module) is a `List DataSourceBinding`; `.first()`
  becomes `List.find?`; the update-then-commit of a fetched row becomes
  `updateFirst`.  Both entry points raise, when they raise, strictly before
  their single `db.session.commit()`, so an `Except.error` result leaves the
  store unchanged and the embedding returns the new store only on `ok`.
- Exceptions carry structure: `OAuthError.authExchange rj` stands for
  `ValueError(f"Error in Notion OAuth: {rj}")` (the message embeds the whole
  parsed response body `rj`), `OAuthError.bindingNotFound` for
  `ValueError('Data source binding not found')`, and `OAuthError.pyError`
  for an uncaught KeyError/TypeError/IndexError/AttributeError.
-/

/-- A parsed JSON value, as the Python `response.json()` materialises it:
`obj` keeps field order (Python dicts preserve insertion order). -/
inductive Json where
  | null : Json
  | bool (b : Bool) : Json
  | num (n : Int) : Json
  | str (s : String) : Json
  | arr (elems : List Json) : Json
  | obj (fields : List (String × Json)) : Json
deriving Repr

/-- Python `==` on JSON values (restricted to comparing like shapes; the
module only ever compares payload values against string literals and
stored tokens). -/
def Json.beq : Json → Json → Bool
  | .null, .null => true
  | .bool a, .bool b => a == b
  | .num a, .num b => a == b
  | .str a, .str b => a == b
  | .arr [], .arr [] => true
  | .arr (x :: xs), .arr (y :: ys) => Json.beq x y && Json.beq (.arr xs) (.arr ys)
  | .obj [], .obj [] => true
  | .obj ((k, v) :: xs), .obj ((l, w) :: ys) =>
      k == l && Json.beq v w && Json.beq (.obj xs) (.obj ys)
  | _, _ => false
termination_by a _ => sizeOf a
decreasing_by all_goals (simp <;> omega)

instance : BEq Json := ⟨Json.beq⟩

/-- Python `==` between a JSON value and a string literal: only an equal
string compares equal. -/
def Json.eqStr : Json → String → Bool
  | .str t, s => t == s
  | _, _ => false

/-- Python truthiness (`if x:`): `None`, `False`, `0`, `""`, `[]`, `{}` are
falsy, everything else truthy. -/
def Json.truthy : Json → Bool
  | .null => false
  | .bool b => b
  | .num n => n != 0
  | .str s => s != ""
  | .arr elems => !elems.isEmpty
  | .obj fields => !fields.isEmpty

/-- Python subscription `base[key]` with a dynamic key (used for
`page_icon[icon_type]` and `parent[parent_type]`): dict lookup for string
keys (KeyError if absent or non-string hashable), list indexing for integer
keys (with negative-index wraparound), string indexing for integer keys. -/
def Json.itemJ : Json → Json → Except String Json
  | .obj fields, .str s =>
      match fields.find? (fun p => p.1 == s) with
      | some p => .ok p.2
      | none => .error "KeyError"
  | .obj _, .null => .error "KeyError"
  | .obj _, .bool _ => .error "KeyError"
  | .obj _, .num _ => .error "KeyError"
  | .obj _, _ => .error "TypeError: unhashable key"
  | .arr xs, .num n =>
      let i : Int := if n < 0 then n + xs.length else n
      if h : 0 ≤ i ∧ i.toNat < xs.length then .ok (xs.get ⟨i.toNat, h.2⟩)
      else .error "IndexError"
  | .str s, .num n =>
      let i : Int := if n < 0 then n + s.length else n
      match s.toList.get? i.toNat with
      | some c => if 0 ≤ i then .ok (.str (String.mk [c])) else .error "IndexError"
      | none => .error "IndexError"
  | _, _ => .error "TypeError: not subscriptable with this key"

/-- Python subscription with a string literal key, `base['k']`. -/
def Json.item (j : Json) (k : String) : Except String Json :=
  j.itemJ (.str k)

/-- Python subscription with a nonnegative integer literal, `base[0]`. -/
def Json.atIdx (j : Json) (n : Nat) : Except String Json :=
  j.itemJ (.num n)

/-- Python `len(x)` on the shapes it succeeds on. -/
def Json.pylen : Json → Except String Nat
  | .str s => .ok s.length
  | .arr elems => .ok elems.length
  | .obj fields => .ok fields.length
  | _ => .error "TypeError: object has no len"

/-- Python `'k' in x`: key membership for dicts, element membership for
lists, substring test for strings. -/
def Json.hasKey : Json → String → Except String Bool
  | .obj fields, k => .ok (fields.any (fun p => p.1 == k))
  | .arr elems, k => .ok (elems.any (fun e => Json.beq e (.str k)))
  | .str s, k => .ok (k.isEmpty || decide (1 < (s.splitOn k).length))
  | _, _ => .error "TypeError: argument is not iterable"

/-- Python `d.get('k')`: `None` when the key is absent; raises
AttributeError when the receiver is not a dict. -/
def Json.pyget : Json → String → Except String Json
  | .obj fields, k =>
      .ok (match fields.find? (fun p => p.1 == k) with
           | some p => p.2
           | none => .null)
  | _, _ => .error "AttributeError: object has no attribute get"

/-- Total variant of `Json.pyget` used to state theorems: the value `.get`
returns once the receiver is known to be a dict. -/
def Json.pygetD (j : Json) (k : String) : Json :=
  match j.pyget k with
  | .ok v => v
  | .error _ => .null

/-- Assignment `d[k] = v` on a dict field list: replace in place if the key
exists (Python keeps insertion order), else append. -/
def setFields (k : String) (v : Json) : List (String × Json) → List (String × Json)
  | [] => [(k, v)]
  | (l, w) :: rest => if l == k then (l, v) :: rest else (l, w) :: setFields k v rest

/-- Python item assignment `base[k] = v` (dict receivers only, as used on
`source_info` in `sync_data_source`). -/
def Json.setItem : Json → String → Json → Except String Json
  | .obj fields, k, v => .ok (.obj (setFields k v fields))
  | _, _, _ => .error "TypeError: object does not support item assignment"

/-- Shared `if len(t) > 0: t[0]['plain_text'] else: 'Untitled'` step applied
to a `title` value (lines 118-121, 123-126 and 153-156). -/
def titleArrayName (t : Json) : Except String Json := do
  let n ← t.pylen
  if n > 0 then
    (← t.atIdx 0).item "plain_text"
  else
    pure (Json.str "Untitled")

/-- Name resolution for one page-search record, lines 117-128: prefer
`properties['Name']['title'][0]['plain_text']`, then
`properties['title']['title'][0]['plain_text']`, else `'Untitled'`. -/
def resolvePageName (properties : Json) : Except String Json := do
  let hasName ← properties.hasKey "Name"
  if hasName then do
    titleArrayName (← (← properties.item "Name").item "title")
  else do
    let hasTitle ← properties.hasKey "title"
    if hasTitle then do
      titleArrayName (← (← properties.item "title").item "title")
    else
      pure (Json.str "Untitled")

/-- Icon resolution for one page-search record, lines 129-134: a truthy
`icon` payload is replaced by its type-keyed sub-field, a falsy one by
`None`. -/
def resolveIcon (page_icon : Json) : Except String Json :=
  if page_icon.truthy then do
    let icon_type ← page_icon.item "type"
    page_icon.itemJ icon_type
  else
    pure Json.null

/-- Parent resolution, lines 135-140 and (verbatim duplicate) 157-162:
`parent['type'] == 'workspace'` maps to the sentinel `'root'`, anything else
to `parent[parent['type']]`. -/
def resolveParentId (parent : Json) : Except String Json := do
  let parent_type ← parent.item "type"
  if parent_type.eqStr "workspace" then
    pure (Json.str "root")
  else
    parent.itemJ parent_type

/-- Lines 115-148: one page-search record to one descriptor dict. -/
def normalizePage (page_result : Json) : Except String Json := do
  let page_id ← page_result.item "id"
  let properties ← page_result.item "properties"
  let page_name ← resolvePageName properties
  let page_icon ← page_result.item "icon"
  let icon ← resolveIcon page_icon
  let parent ← page_result.item "parent"
  let parent_id ← resolveParentId parent
  pure (Json.obj [("page_id", page_id), ("page_name", page_name),
    ("page_icon", icon), ("parent_id", parent_id), ("type", Json.str "page")])

/-- Lines 151-170: one database-search record to one descriptor dict (name
from the top-level `title` array, icon taken verbatim). -/
def normalizeDatabase (database_result : Json) : Except String Json := do
  let page_id ← database_result.item "id"
  let t ← database_result.item "title"
  let page_name ← titleArrayName t
  let page_icon ← database_result.item "icon"
  let parent ← database_result.item "parent"
  let parent_id ← resolveParentId parent
  pure (Json.obj [("page_id", page_id), ("page_name", page_name),
    ("page_icon", page_icon), ("parent_id", parent_id), ("type", Json.str "database")])

/-- The inner `for database_result in database_results` loop body collected
over the whole list, in order. -/
def databasesLoop : List Json → Except String (List Json)
  | [] => .ok []
  | d :: ds => do
    let x ← normalizeDatabase d
    let xs ← databasesLoop ds
    pure (x :: xs)

/-- The outer `for page_result in page_results` loop: each iteration appends
the page descriptor and then (nested loop, lines 150-170) one descriptor per
database-search result. -/
def pagesLoop (database_results : List Json) : List Json → Except String (List Json)
  | [] => .ok []
  | p :: ps => do
    let x ← normalizePage p
    let dbs ← databasesLoop database_results
    let rest ← pagesLoop database_results ps
    pure (x :: (dbs ++ rest))

/-- Lines 110-171, `get_authorized_pages` after the two search calls have
produced `page_results` and `database_results`. -/
def get_authorized_pages (page_results database_results : List Json) :
    Except String (List Json) :=
  pagesLoop database_results page_results

/-- One row of the `data_source_bindings` table as this module sees it. -/
structure DataSourceBinding where
  id : String
  tenant_id : String
  provider : String
  access_token : Json
  source_info : Json
  disabled : Bool

/-- Errors the two entry points can raise (see the module comment). -/
inductive OAuthError where
  | authExchange (response_json : Json) : OAuthError
  | bindingNotFound : OAuthError
  | pyError (msg : String) : OAuthError

/-- The `source_info` dict built at lines 57-63. -/
def mkSourceInfo (workspace_name workspace_icon workspace_id : Json)
    (pages : List Json) : Json :=
  .obj [("workspace_name", workspace_name), ("workspace_icon", workspace_icon),
    ("workspace_id", workspace_id), ("pages", .arr pages),
    ("total", .num pages.length)]

/-- The filter of the upsert query at lines 65-71: tenant, provider
`'notion'`, and the just-obtained access token. -/
def tokenPred (tenant_id : String) (access_token : Json) (b : DataSourceBinding) : Bool :=
  b.tenant_id == tenant_id && b.provider == "notion" && b.access_token == access_token

/-- The filter of the resync query at lines 89-96: tenant, provider
`'notion'`, the given binding id, and `disabled == False`. -/
def syncPred (tenant_id binding_id : String) (b : DataSourceBinding) : Bool :=
  b.tenant_id == tenant_id && b.provider == "notion" && b.id == binding_id &&
    b.disabled == false

/-- Mutate-and-commit of the first row the query returned: apply `f` to the
first `p`-match of the list, leave everything else in place. -/
def updateFirst (p : DataSourceBinding → Bool) (f : DataSourceBinding → DataSourceBinding) :
    List DataSourceBinding → List DataSourceBinding
  | [] => []
  | b :: bs => if p b then f b :: bs else b :: updateFirst p f bs

/-- Lines 38-85, `get_access_token` after the token-endpoint POST returned
`response_json` and with the two search results passed through to
`get_authorized_pages`.  `tenant_id` is `current_user.current_tenant_id`;
`new_id` is the id the store would assign to a freshly inserted row. -/
def get_access_token (tenant_id new_id : String) (response_json : Json)
    (page_results database_results : List Json)
    (db : List DataSourceBinding) : Except OAuthError (List DataSourceBinding) := do
  let access_token ← (response_json.pyget "access_token").mapError OAuthError.pyError
  if !access_token.truthy then
    throw (OAuthError.authExchange response_json)
  let workspace_name ← (response_json.pyget "workspace_name").mapError OAuthError.pyError
  let workspace_icon ← (response_json.pyget "workspace_icon").mapError OAuthError.pyError
  let workspace_id ← (response_json.pyget "workspace_id").mapError OAuthError.pyError
  let pages ← (get_authorized_pages page_results database_results).mapError OAuthError.pyError
  let source_info := mkSourceInfo workspace_name workspace_icon workspace_id pages
  match db.find? (tokenPred tenant_id access_token) with
  | some _ =>
      pure (updateFirst (tokenPred tenant_id access_token)
        (fun b => { b with source_info := source_info, disabled := false }) db)
  | none =>
      let nb : DataSourceBinding :=
        { id := new_id, tenant_id := tenant_id, provider := "notion",
          access_token := access_token, source_info := source_info, disabled := false }
      pure (db ++ [nb])

/-- Lines 87-108, `sync_data_source`, with the two search results (for the
stored token) passed through to `get_authorized_pages`. -/
def sync_data_source (tenant_id binding_id : String)
    (page_results database_results : List Json)
    (db : List DataSourceBinding) : Except OAuthError (List DataSourceBinding) :=
  match db.find? (syncPred tenant_id binding_id) with
  | some b => do
      let pages ← (get_authorized_pages page_results database_results).mapError OAuthError.pyError
      let si1 ← (b.source_info.setItem "pages" (.arr pages)).mapError OAuthError.pyError
      let si2 ← (si1.setItem "total" (.num pages.length)).mapError OAuthError.pyError
      pure (updateFirst (syncPred tenant_id binding_id)
        (fun c => { c with source_info := si2, disabled := false }) db)
  | none => throw OAuthError.bindingNotFound

/-- Descriptor classifier used to count output kinds: its `'type'` tag. -/
def hasType (t : String) (d : Json) : Bool :=
  match d.item "type" with
  | .ok v => v.eqStr t
  | .error _ => false

/-- Number of descriptors of a given `'type'` tag in a descriptor list. -/
def countType (t : String) (out : List Json) : Nat :=
  (out.filter (hasType t)).length

/-- The stored-count invariant of a `source_info` dict: its `total` field
equals the length of its `pages` field. -/
def totalInvariant (si : Json) : Bool :=
  match si.pyget "pages", si.pyget "total" with
  | .ok (.arr l), .ok (.num n) => n == (l.length : Int)
  | _, _ => false

/-! Generic inversion lemmas for `Except` computations. -/

theorem ebind_ok {ε α β : Type} {e : Except ε α} {k : α → Except ε β} {b : β} :
    (e >>= k) = Except.ok b ↔ ∃ a, e = Except.ok a ∧ k a = Except.ok b := by
  cases e <;> simp [Bind.bind, Except.bind]

theorem epure_ok {ε α : Type} {a b : α} :
    (pure a : Except ε α) = Except.ok b ↔ a = b := by
  simp [pure, Except.pure]

theorem ethrow_ok {ε α : Type} {e : ε} {b : α} :
    (throw e : Except ε α) = Except.ok b ↔ False := by
  simp [throw, throwThe, MonadExceptOf.throw]

theorem emapError_ok {ε ε2 α : Type} {f : ε → ε2} {e : Except ε α} {b : α} :
    e.mapError f = Except.ok b ↔ e = Except.ok b := by
  cases e <;> simp [Except.mapError]

/-! Facts about `Json.beq`. -/

theorem Json.beq_eq (a b : Json) : (a == b) = Json.beq a b := rfl

theorem Json.beq_refl : ∀ j : Json, Json.beq j j = true
  | .null => by simp [Json.beq]
  | .bool b => by simp [Json.beq]
  | .num n => by simp [Json.beq]
  | .str s => by simp [Json.beq]
  | .arr [] => by simp [Json.beq]
  | .arr (x :: xs) => by
      rw [Json.beq]
      simp [Json.beq_refl x, Json.beq_refl (.arr xs)]
  | .obj [] => by simp [Json.beq]
  | .obj ((k, v) :: fs) => by
      rw [Json.beq]
      simp [Json.beq_refl v, Json.beq_refl (.obj fs)]
termination_by j => sizeOf j
decreasing_by all_goals (simp <;> omega)

theorem Json.eqStr_iff (a : Json) (s : String) :
    Json.eqStr a s = true ↔ a = .str s := by
  cases a <;> simp [Json.eqStr]

/-! Shape of the descriptors the normalizer emits. -/

theorem normalizePage_shape {p d : Json} (h : normalizePage p = Except.ok d) :
    ∃ pid name icon parid, d = Json.obj [("page_id", pid), ("page_name", name),
      ("page_icon", icon), ("parent_id", parid), ("type", Json.str "page")] := by
  unfold normalizePage at h
  simp only [ebind_ok, epure_ok] at h
  obtain ⟨pid, -, props, -, nm, -, pi, -, ic, -, par, -, parid, -, h⟩ := h
  exact ⟨pid, nm, ic, parid, h.symm⟩

theorem normalizeDatabase_shape {p d : Json} (h : normalizeDatabase p = Except.ok d) :
    ∃ pid name icon parid, d = Json.obj [("page_id", pid), ("page_name", name),
      ("page_icon", icon), ("parent_id", parid), ("type", Json.str "database")] := by
  unfold normalizeDatabase at h
  simp only [ebind_ok, epure_ok] at h
  obtain ⟨pid, -, t, -, nm, -, ic, -, par, -, parid, -, h⟩ := h
  exact ⟨pid, nm, ic, parid, h.symm⟩

theorem hasType_normalizePage {p d : Json} (h : normalizePage p = Except.ok d) :
    hasType "page" d = true ∧ hasType "database" d = false := by
  obtain ⟨pid, nm, ic, parid, rfl⟩ := normalizePage_shape h
  constructor <;> rfl

theorem hasType_normalizeDatabase {p d : Json} (h : normalizeDatabase p = Except.ok d) :
    hasType "database" d = true ∧ hasType "page" d = false := by
  obtain ⟨pid, nm, ic, parid, rfl⟩ := normalizeDatabase_shape h
  constructor <;> rfl

/-! Counting descriptors by their tag. -/

theorem countType_nil (t : String) : countType t [] = 0 := rfl

theorem countType_cons (t : String) (d : Json) (l : List Json) :
    countType t (d :: l) = (if hasType t d then 1 else 0) + countType t l := by
  by_cases h : hasType t d <;>
    simp [countType, List.filter_cons, h, Nat.add_comm]

theorem countType_append (t : String) (l1 l2 : List Json) :
    countType t (l1 ++ l2) = countType t l1 + countType t l2 := by
  simp [countType, List.filter_append]

theorem countType_eq_zero {t : String} {l : List Json}
    (h : ∀ d ∈ l, hasType t d = false) : countType t l = 0 := by
  simp only [countType, List.length_eq_zero]
  exact List.filter_eq_nil_iff.mpr (by simpa using h)

theorem countType_eq_length {t : String} {l : List Json}
    (h : ∀ d ∈ l, hasType t d = true) : countType t l = l.length := by
  simp only [countType]
  rw [List.filter_eq_self.mpr (by simpa using h)]

/-! Behaviour of the two normalization loops. -/

theorem databasesLoop_ok {ds out : List Json} (h : databasesLoop ds = Except.ok out) :
    out.length = ds.length ∧
    ∀ d ∈ out, hasType "database" d = true ∧ hasType "page" d = false := by
  induction ds generalizing out with
  | nil =>
      simp only [databasesLoop] at h
      cases h
      simp
  | cons d ds ih =>
      simp only [databasesLoop, ebind_ok, epure_ok] at h
      obtain ⟨x, hx, xs, hxs, rfl⟩ := h
      obtain ⟨hlen, hall⟩ := ih hxs
      refine ⟨by simp [hlen], ?_⟩
      intro e he
      rcases List.mem_cons.mp he with rfl | he2
      · exact ⟨(hasType_normalizeDatabase hx).1, (hasType_normalizeDatabase hx).2⟩
      · exact hall e he2

theorem pagesLoop_counts {dbs ps out : List Json} (h : pagesLoop dbs ps = Except.ok out) :
    countType "page" out = ps.length ∧
    countType "database" out = ps.length * dbs.length ∧
    out.length = ps.length + ps.length * dbs.length := by
  induction ps generalizing out with
  | nil =>
      simp only [pagesLoop] at h
      cases h
      simp [countType_nil]
  | cons p ps ih =>
      simp only [pagesLoop, ebind_ok, epure_ok] at h
      obtain ⟨x, hx, dbds, hdbds, rest, hrest, rfl⟩ := h
      obtain ⟨hplen, hpdb, hptot⟩ := ih hrest
      obtain ⟨hdlen, hdall⟩ := databasesLoop_ok hdbds
      have hxp := hasType_normalizePage hx
      have hdbzero : countType "page" dbds = 0 :=
        countType_eq_zero (fun d hd => (hdall d hd).2)
      have hdbfull : countType "database" dbds = dbds.length :=
        countType_eq_length (fun d hd => (hdall d hd).1)
      refine ⟨?_, ?_, ?_⟩
      · rw [countType_cons, countType_append, hdbzero, hplen, hxp.1]
        simp [Nat.add_comm]
      · rw [countType_cons, countType_append, hdbfull, hpdb, hxp.2, hdlen]
        simp [Nat.succ_mul, Nat.add_comm]
      · simp only [List.length_cons, List.length_append, hptot, hdlen]
        ring

/-! Concrete provider records used as witnesses. -/

/-- A page-search record for an untitled page at the workspace root. -/
def samplePage : Json := .obj [("id", .str "p1"), ("properties", .obj []),
  ("icon", .null), ("parent", .obj [("type", .str "workspace")])]

/-- A page-search record with a populated `Name` title and an emoji icon,
parented under `p1`. -/
def samplePage2 : Json := .obj [("id", .str "p2"),
  ("properties", .obj [("Name", .obj [("title",
    .arr [.obj [("plain_text", .str "Roadmap")]])])]),
  ("icon", .obj [("type", .str "emoji"), ("emoji", .str "E")]),
  ("parent", .obj [("type", .str "page_id"), ("page_id", .str "p1")])]

/-- A database-search record named `DB`, parented under `p1`. -/
def sampleDatabase : Json := .obj [("id", .str "d1"),
  ("title", .arr [.obj [("plain_text", .str "DB")]]), ("icon", .null),
  ("parent", .obj [("type", .str "page_id"), ("page_id", .str "p1")])]

/-- The descriptor for `samplePage`. -/
def sampleDescP1 : Json := .obj [("page_id", .str "p1"),
  ("page_name", .str "Untitled"), ("page_icon", .null),
  ("parent_id", .str "root"), ("type", .str "page")]

/-- The descriptor for `samplePage2`. -/
def sampleDescP2 : Json := .obj [("page_id", .str "p2"),
  ("page_name", .str "Roadmap"), ("page_icon", .str "E"),
  ("parent_id", .str "p1"), ("type", .str "page")]

/-- The descriptor for `sampleDatabase`. -/
def sampleDescD1 : Json := .obj [("page_id", .str "d1"),
  ("page_name", .str "DB"), ("page_icon", .null),
  ("parent_id", .str "p1"), ("type", .str "database")]

/-- What `get_authorized_pages` returns on two pages and one database: the
database descriptor appears once after each page descriptor. -/
def sampleOut : List Json := [sampleDescP1, sampleDescD1, sampleDescP2, sampleDescD1]

/-- C1: `get_authorized_pages` iterates the database-search results once per
page-search result, so a successful run on `N` page results and `M` database
results emits `N` descriptors tagged `page` and `N * M` descriptors tagged
`database` (each database descriptor once per page), `N + N * M` in total. -/
theorem c1_database_results_iterated_per_page
    {page_results database_results out : List Json}
    (h : get_authorized_pages page_results database_results = Except.ok out) :
    countType "page" out = page_results.length ∧
    countType "database" out = page_results.length * database_results.length ∧
    out.length = page_results.length + page_results.length * database_results.length :=
  pagesLoop_counts h

/-- Witness for C1 at two concrete pages and one concrete database:
2 page descriptors, 2 * 1 database descriptors, 4 descriptors in total. -/
theorem c1_database_results_iterated_per_page_witness :
    get_authorized_pages [samplePage, samplePage2] [sampleDatabase] =
      Except.ok sampleOut ∧
    countType "page" sampleOut = 2 ∧ countType "database" sampleOut = 2 ∧
    sampleOut.length = 4 :=
  ⟨rfl,
    (@c1_database_results_iterated_per_page [samplePage, samplePage2]
      [sampleDatabase] sampleOut rfl).1,
    (@c1_database_results_iterated_per_page [samplePage, samplePage2]
      [sampleDatabase] sampleOut rfl).2.1,
    (@c1_database_results_iterated_per_page [samplePage, samplePage2]
      [sampleDatabase] sampleOut rfl).2.2⟩

/-- C9: when the page search returns no results the outer loop never runs,
so `get_authorized_pages` returns the empty list whatever the database
search returned. -/
theorem c9_no_pages_no_output (database_results : List Json) :
    get_authorized_pages [] database_results = Except.ok [] := rfl

/-- Witness for C9 at a nonempty database-search result list. -/
theorem c9_no_pages_no_output_witness :
    get_authorized_pages [] [sampleDatabase] = Except.ok [] :=
  c9_no_pages_no_output [sampleDatabase]

/-! Evaluation helpers for the `Except` monad and the title step. -/

theorem ok_bind {ε α β : Type} (a : α) (k : α → Except ε β) :
    (Except.ok a >>= k) = k a := rfl

theorem epure_eq_ok {ε α : Type} (a : α) : (pure a : Except ε α) = Except.ok a := rfl

theorem titleArrayName_cons {e : Json} (rest : List Json) {pt : Json}
    (h : e.item "plain_text" = Except.ok pt) :
    titleArrayName (.arr (e :: rest)) = Except.ok pt := by
  simp only [titleArrayName, Json.pylen, ok_bind, List.length_cons, Json.atIdx,
    Json.itemJ]
  simp [ok_bind, h]

theorem titleArrayName_nil : titleArrayName (.arr []) = Except.ok (.str "Untitled") := by
  simp [titleArrayName, Json.pylen, ok_bind, epure_eq_ok]

/-- C6: name resolution for a page-search record follows the order
`properties.Name.title` (first entry's `plain_text` when the array is
nonempty, `'Untitled'` when it is empty), then `properties.title.title`
(same rule), then the literal `'Untitled'` when neither property exists. -/
theorem c6_page_name_resolution_order :
    (∀ props nv e rest pt, props.hasKey "Name" = Except.ok true →
      props.item "Name" = Except.ok nv →
      nv.item "title" = Except.ok (.arr (e :: rest)) →
      e.item "plain_text" = Except.ok pt →
      resolvePageName props = Except.ok pt) ∧
    (∀ props nv, props.hasKey "Name" = Except.ok true →
      props.item "Name" = Except.ok nv →
      nv.item "title" = Except.ok (.arr []) →
      resolvePageName props = Except.ok (.str "Untitled")) ∧
    (∀ props tv e rest pt, props.hasKey "Name" = Except.ok false →
      props.hasKey "title" = Except.ok true →
      props.item "title" = Except.ok tv →
      tv.item "title" = Except.ok (.arr (e :: rest)) →
      e.item "plain_text" = Except.ok pt →
      resolvePageName props = Except.ok pt) ∧
    (∀ props tv, props.hasKey "Name" = Except.ok false →
      props.hasKey "title" = Except.ok true →
      props.item "title" = Except.ok tv →
      tv.item "title" = Except.ok (.arr []) →
      resolvePageName props = Except.ok (.str "Untitled")) ∧
    (∀ props, props.hasKey "Name" = Except.ok false →
      props.hasKey "title" = Except.ok false →
      resolvePageName props = Except.ok (.str "Untitled")) := by
  refine ⟨?_, ?_, ?_, ?_, ?_⟩
  · intro props nv e rest pt h1 h2 h3 h4
    simp [resolvePageName, h1, h2, h3, ok_bind, titleArrayName_cons rest h4, epure_eq_ok]
  · intro props nv h1 h2 h3
    simp [resolvePageName, h1, h2, h3, ok_bind, titleArrayName_nil, epure_eq_ok]
  · intro props tv e rest pt h1 h2 h3 h4 h5
    simp [resolvePageName, h1, h2, h3, h4, ok_bind, titleArrayName_cons rest h5, epure_eq_ok]
  · intro props tv h1 h2 h3 h4
    simp [resolvePageName, h1, h2, h3, h4, ok_bind, titleArrayName_nil, epure_eq_ok]
  · intro props h1 h2
    simp [resolvePageName, h1, h2, ok_bind, epure_eq_ok]

/-- Witness for C6: `properties.Name.title = []` resolves to `'Untitled'`
and `properties.Name.title = [{plain_text: 'Roadmap'}]` resolves to
`'Roadmap'`. -/
theorem c6_page_name_resolution_order_witness :
    resolvePageName (.obj [("Name", .obj [("title", .arr [])])]) =
      Except.ok (.str "Untitled") ∧
    resolvePageName (.obj [("Name", .obj [("title",
      .arr [.obj [("plain_text", .str "Roadmap")]])])]) =
      Except.ok (.str "Roadmap") :=
  ⟨c6_page_name_resolution_order.2.1 _ _ rfl rfl rfl,
    c6_page_name_resolution_order.1 _ _ _ [] _ rfl rfl rfl rfl⟩

/-- C7: parent resolution maps `parent.type = 'workspace'` to the literal
sentinel `'root'` and any other type value `t` to the sub-field
`parent[t]`. -/
theorem c7_parent_resolution :
    (∀ parent pt, parent.item "type" = Except.ok pt →
      pt = .str "workspace" →
      resolveParentId parent = Except.ok (.str "root")) ∧
    (∀ parent pt, parent.item "type" = Except.ok pt →
      pt ≠ .str "workspace" →
      resolveParentId parent = parent.itemJ pt) := by
  constructor
  · intro parent pt h1 h2
    subst h2
    simp [resolveParentId, h1, ok_bind, Json.eqStr, epure_eq_ok]
  · intro parent pt h1 h2
    have hf : pt.eqStr "workspace" = false := by
      rcases hb : pt.eqStr "workspace" with _ | _
      · rfl
      · exact absurd ((Json.eqStr_iff pt "workspace").mp hb) h2
    simp [resolveParentId, h1, ok_bind, hf, epure_eq_ok]

/-- Witness for C7: `{'type': 'workspace'}` resolves to `'root'`;
`{'type': 'page_id', 'page_id': 'abc123'}` resolves to `'abc123'`. -/
theorem c7_parent_resolution_witness :
    resolveParentId (.obj [("type", .str "workspace")]) = Except.ok (.str "root") ∧
    resolveParentId (.obj [("type", .str "page_id"), ("page_id", .str "abc123")]) =
      Except.ok (.str "abc123") :=
  ⟨c7_parent_resolution.1 _ _ rfl rfl,
    (c7_parent_resolution.2 (.obj [("type", .str "page_id"),
      ("page_id", .str "abc123")]) (.str "page_id") rfl (by simp)).trans rfl⟩

/-! Error propagation helpers. -/

theorem error_bind {ε α β : Type} (e : ε) (k : α → Except ε β) :
    (Except.error e >>= k) = Except.error e := rfl

theorem ethrow_eq {ε α : Type} (e : ε) : (throw e : Except ε α) = Except.error e := rfl

/-- C2: when the parsed token-endpoint response is a JSON object with no
`access_token` field, `get_access_token` stops with the auth-exchange error
carrying the whole response body (the raised `ValueError` message is
`f"Error in Notion OAuth: {response_json}"`), before any search call and
before any store lookup or commit, so no binding is created or modified. -/
theorem c2_missing_access_token_raises (tenant_id new_id : String)
    (kvs : List (String × Json)) (page_results database_results : List Json)
    (db : List DataSourceBinding)
    (h : kvs.find? (fun p => p.1 == "access_token") = none) :
    get_access_token tenant_id new_id (.obj kvs) page_results database_results db =
      Except.error (.authExchange (.obj kvs)) := by
  simp [get_access_token, Json.pyget, h, Except.mapError, ok_bind, error_bind,
    ethrow_eq, Json.truthy]

/-- Witness for C2: a response body reporting an OAuth failure, on a
nonempty store, produces the auth-exchange error. -/
theorem c2_missing_access_token_raises_witness :
    get_access_token "t1" "b9" (.obj [("error", .str "invalid_grant")]) [samplePage]
      [sampleDatabase] [] =
      Except.error (.authExchange (.obj [("error", .str "invalid_grant")])) :=
  c2_missing_access_token_raises "t1" "b9" [("error", .str "invalid_grant")]
    [samplePage] [sampleDatabase] [] rfl

/-- C5: when no enabled binding matches `(tenant_id, 'notion', binding_id)`
the resync path raises the binding-not-found error (the raised `ValueError`
is `'Data source binding not found'`): no store write happens (the result
carries no new store), and the outcome is the same whatever the two search
calls would have returned, because the code raises before searching. -/
theorem c5_resync_unmatched_binding_raises (tenant_id binding_id : String)
    (db : List DataSourceBinding)
    (h : db.find? (syncPred tenant_id binding_id) = none) :
    ∀ page_results database_results : List Json,
      sync_data_source tenant_id binding_id page_results database_results db =
        Except.error .bindingNotFound := by
  intro prs drs
  simp [sync_data_source, h, ethrow_eq]

/-- A disabled binding row used to exercise the not-found path. -/
def sampleBindingDisabled : DataSourceBinding :=
  { id := "b1", tenant_id := "t1", provider := "notion",
    access_token := .str "tok", source_info := .obj [], disabled := true }

/-- Witness for C5: resyncing the id of a disabled binding fails with the
binding-not-found error for two different search outcomes. -/
theorem c5_resync_unmatched_binding_raises_witness :
    sync_data_source "t1" "b1" [] [] [sampleBindingDisabled] =
      Except.error .bindingNotFound ∧
    sync_data_source "t1" "b1" [samplePage] [sampleDatabase] [sampleBindingDisabled] =
      Except.error .bindingNotFound :=
  ⟨c5_resync_unmatched_binding_raises "t1" "b1" [sampleBindingDisabled] rfl [] [],
    c5_resync_unmatched_binding_raises "t1" "b1" [sampleBindingDisabled] rfl
      [samplePage] [sampleDatabase]⟩

/-! Dict-assignment lemmas: what `d[k] = v` does to later lookups. -/

theorem setFields_find_same (k : String) (v : Json) :
    ∀ fs : List (String × Json),
      (setFields k v fs).find? (fun p => p.1 == k) = some (k, v)
  | [] => by simp [setFields]
  | (l, w) :: rest => by
      cases hlk : (l == k) with
      | true =>
          have hl : l = k := eq_of_beq hlk
          subst hl
          simp [setFields, hlk, List.find?]
      | false =>
          simp [setFields, hlk, List.find?, setFields_find_same k v rest]

theorem setFields_find_other (k k2 : String) (v : Json) (hne : k2 ≠ k) :
    ∀ fs : List (String × Json),
      (setFields k v fs).find? (fun p => p.1 == k2) = fs.find? (fun p => p.1 == k2)
  | [] => by
      have : (k == k2) = false := beq_eq_false_iff_ne.mpr (fun hh => hne hh.symm)
      simp [setFields, List.find?, this]
  | (l, w) :: rest => by
      cases hlk : (l == k) with
      | true =>
          have hl : l = k := eq_of_beq hlk
          subst hl
          have : (l == k2) = false := beq_eq_false_iff_ne.mpr (fun hh => hne hh.symm)
          simp [setFields, List.find?, this]
      | false =>
          cases hlk2 : (l == k2) with
          | true => simp [setFields, hlk, List.find?, hlk2]
          | false => simp [setFields, hlk, List.find?, hlk2,
              setFields_find_other k k2 v hne rest]

theorem pyget_obj (fs : List (String × Json)) (k : String) :
    (Json.obj fs).pyget k =
      Except.ok (match fs.find? (fun p => p.1 == k) with
        | some p => p.2
        | none => .null) := rfl

/-- C4: a successful resync of a found enabled binding rewrites its
`source_info` to a dict whose `pages` field is the fresh normalization
output and whose `total` field is its length, while every other field — in
particular `workspace_name`, `workspace_icon` and `workspace_id` — keeps
the value it had; this includes empty search results, for which `pages`
becomes `[]` and `total` becomes `0`. -/
theorem c4_resync_replaces_only_pages_and_total
    {tenant_id binding_id : String} {prs drs : List Json}
    {db : List DataSourceBinding} {b : DataSourceBinding}
    {sif : List (String × Json)} {pages : List Json}
    (hfind : db.find? (syncPred tenant_id binding_id) = some b)
    (hobj : b.source_info = .obj sif)
    (hpages : get_authorized_pages prs drs = Except.ok pages) :
    ∃ si2, sync_data_source tenant_id binding_id prs drs db =
        Except.ok (updateFirst (syncPred tenant_id binding_id)
          (fun c => { c with source_info := si2, disabled := false }) db) ∧
      si2.pyget "pages" = Except.ok (.arr pages) ∧
      si2.pyget "total" = Except.ok (.num pages.length) ∧
      ∀ k, k ≠ "pages" → k ≠ "total" → si2.pyget k = b.source_info.pyget k := by
  refine ⟨.obj (setFields "total" (.num pages.length)
    (setFields "pages" (.arr pages) sif)), ?_, ?_, ?_, ?_⟩
  · simp [sync_data_source, hfind, hpages, hobj, Json.setItem, ok_bind,
      epure_eq_ok, Except.mapError]
  · rw [pyget_obj, setFields_find_other "total" "pages" _ (by decide),
      setFields_find_same]
  · rw [pyget_obj, setFields_find_same]
  · intro k hk1 hk2
    rw [pyget_obj, setFields_find_other "total" k _ hk2,
      setFields_find_other "pages" k _ hk1, hobj, pyget_obj]

/-- The `source_info` of a healthy enabled binding, with workspace metadata
and one stored page descriptor. -/
def sampleSourceInfo : Json := .obj [("workspace_name", .str "Acme"),
  ("workspace_icon", .null), ("workspace_id", .str "w1"),
  ("pages", .arr [sampleDescP1]), ("total", .num 1)]

/-- An enabled binding row holding `sampleSourceInfo`. -/
def sampleBinding : DataSourceBinding :=
  { id := "b1", tenant_id := "t1", provider := "notion",
    access_token := .str "tok", source_info := sampleSourceInfo, disabled := false }

/-- Witness for C4 at a concrete enabled binding and empty search results:
`pages` becomes `[]`, `total` becomes `0`, and every other `source_info`
field — the three workspace fields included — is preserved. -/
theorem c4_resync_replaces_only_pages_and_total_witness :
    ∃ si2, sync_data_source "t1" "b1" [] [] [sampleBinding] =
        Except.ok (updateFirst (syncPred "t1" "b1")
          (fun c => { c with source_info := si2, disabled := false }) [sampleBinding]) ∧
      si2.pyget "pages" = Except.ok (.arr []) ∧
      si2.pyget "total" = Except.ok (.num 0) ∧
      ∀ k, k ≠ "pages" → k ≠ "total" →
        si2.pyget k = sampleBinding.source_info.pyget k :=
  c4_resync_replaces_only_pages_and_total rfl rfl rfl

/-! Store helpers for the upsert reasoning. -/

theorem find?_append_right {α : Type} (p : α → Bool) {l1 : List α} (l2 : List α)
    (h : ∀ x ∈ l1, p x = false) : (l1 ++ l2).find? p = l2.find? p := by
  induction l1 with
  | nil => simp
  | cons a l ih =>
      have ha := h a (List.mem_cons_self a l)
      simp only [List.cons_append, List.find?, ha]
      exact ih (fun x hx => h x (List.mem_cons_of_mem a hx))

theorem updateFirst_append (p : DataSourceBinding → Bool)
    (f : DataSourceBinding → DataSourceBinding)
    {l1 : List DataSourceBinding} (l2 : List DataSourceBinding)
    (h : ∀ x ∈ l1, p x = false) :
    updateFirst p f (l1 ++ l2) = l1 ++ updateFirst p f l2 := by
  induction l1 with
  | nil => simp
  | cons a l ih =>
      have ha := h a (List.mem_cons_self a l)
      simp only [List.cons_append, updateFirst, ha, Bool.false_eq_true, if_false,
        List.cons.injEq, true_and]
      exact ih (fun x hx => h x (List.mem_cons_of_mem a hx))

theorem mem_updateFirst {p : DataSourceBinding → Bool}
    {f : DataSourceBinding → DataSourceBinding} {l : List DataSourceBinding}
    {b : DataSourceBinding} (h : b ∈ updateFirst p f l) :
    b ∈ l ∨ ∃ c, c ∈ l ∧ b = f c := by
  induction l with
  | nil => simp [updateFirst] at h
  | cons a l ih =>
      by_cases ha : p a
      · simp only [updateFirst, ha, if_true] at h
        rcases List.mem_cons.mp h with rfl | hb
        · exact Or.inr ⟨a, List.mem_cons_self a l, rfl⟩
        · exact Or.inl (List.mem_cons_of_mem a hb)
      · simp only [updateFirst, ha, if_false] at h
        rcases List.mem_cons.mp h with rfl | hb
        · exact Or.inl (List.mem_cons_self b l)
        · rcases ih hb with hb2 | ⟨c, hc, rfl⟩
          · exact Or.inl (List.mem_cons_of_mem a hb2)
          · exact Or.inr ⟨c, List.mem_cons_of_mem a hc, rfl⟩

theorem mapError_ok_eq {ε ε2 α : Type} (f : ε → ε2) (a : α) :
    (Except.ok a : Except ε α).mapError f = Except.ok a := rfl

theorem pyget_obj_getD (kvs : List (String × Json)) (k : String) :
    (Json.obj kvs).pyget k = Except.ok ((Json.obj kvs).pygetD k) := rfl

/-- The `source_info` that a successful `get_access_token` run on response
body `Json.obj kvs` stores: workspace metadata from the response plus the
normalization output. -/
def tokenSourceInfo (kvs : List (String × Json)) (pages : List Json) : Json :=
  mkSourceInfo ((Json.obj kvs).pygetD "workspace_name")
    ((Json.obj kvs).pygetD "workspace_icon")
    ((Json.obj kvs).pygetD "workspace_id") pages

/-- The fresh row `get_access_token` inserts when no binding matched. -/
def newBinding (tenant_id new_id : String) (kvs : List (String × Json))
    (pages : List Json) : DataSourceBinding :=
  { id := new_id, tenant_id := tenant_id, provider := "notion",
    access_token := (Json.obj kvs).pygetD "access_token",
    source_info := tokenSourceInfo kvs pages, disabled := false }

theorem get_access_token_insert (tenant_id new_id : String)
    (kvs : List (String × Json)) {prs drs pages : List Json}
    {db : List DataSourceBinding}
    (htruthy : ((Json.obj kvs).pygetD "access_token").truthy = true)
    (hpages : get_authorized_pages prs drs = Except.ok pages)
    (hfind : db.find? (tokenPred tenant_id ((Json.obj kvs).pygetD "access_token")) = none) :
    get_access_token tenant_id new_id (.obj kvs) prs drs db =
      Except.ok (db ++ [newBinding tenant_id new_id kvs pages]) := by
  simp [get_access_token, pyget_obj_getD, mapError_ok_eq, ok_bind, hpages,
    htruthy, hfind, epure_eq_ok, newBinding, tokenSourceInfo]

theorem get_access_token_update (tenant_id new_id : String)
    (kvs : List (String × Json)) {prs drs pages : List Json}
    {db : List DataSourceBinding} {b : DataSourceBinding}
    (htruthy : ((Json.obj kvs).pygetD "access_token").truthy = true)
    (hpages : get_authorized_pages prs drs = Except.ok pages)
    (hfind : db.find? (tokenPred tenant_id ((Json.obj kvs).pygetD "access_token")) = some b) :
    get_access_token tenant_id new_id (.obj kvs) prs drs db =
      Except.ok (updateFirst (tokenPred tenant_id ((Json.obj kvs).pygetD "access_token"))
        (fun c => { c with source_info := tokenSourceInfo kvs pages, disabled := false })
        db) := by
  simp [get_access_token, pyget_obj_getD, mapError_ok_eq, ok_bind, hpages,
    htruthy, hfind, epure_eq_ok, tokenSourceInfo]

theorem tokenPred_newBinding (tenant_id new_id : String)
    (kvs : List (String × Json)) (pages : List Json) :
    tokenPred tenant_id ((Json.obj kvs).pygetD "access_token")
      (newBinding tenant_id new_id kvs pages) = true := by
  simp [tokenPred, newBinding, Json.beq_eq, Json.beq_refl]

theorem tokenPred_updated (tenant_id : String) (tok : Json)
    (b : DataSourceBinding) (si : Json) :
    tokenPred tenant_id tok { b with source_info := si, disabled := false } =
      tokenPred tenant_id tok b := rfl

theorem find?_eq_filter_head? {α : Type} (p : α → Bool) :
    ∀ l : List α, l.find? p = (l.filter p).head?
  | [] => rfl
  | a :: l => by
      cases ha : p a with
      | true =>
          rw [List.find?_cons_of_pos _ ha, List.filter_cons_of_pos ha]
          rfl
      | false =>
          rw [List.find?_cons_of_neg _ (by simp [ha]), List.filter_cons_of_neg (by simp [ha])]
          exact find?_eq_filter_head? p l

theorem filter_updateFirst_cons {p : DataSourceBinding → Bool}
    (f : DataSourceBinding → DataSourceBinding) (hp : ∀ c, p (f c) = p c)
    {l : List DataSourceBinding} {x : DataSourceBinding}
    {xs : List DataSourceBinding} (h : l.filter p = x :: xs) :
    (updateFirst p f l).filter p = f x :: xs := by
  induction l generalizing x xs with
  | nil => simp at h
  | cons a l ih =>
      cases ha : p a with
      | true =>
          simp only [List.filter_cons, ha, if_true] at h
          injection h with h1 h2
          subst h1
          subst h2
          simp only [updateFirst, ha, if_true, List.filter_cons, hp]
      | false =>
          simp only [List.filter_cons, ha, Bool.false_eq_true, if_false] at h
          simp [updateFirst, ha, List.filter_cons, ih h]

/-- C3: starting from any store that satisfies the at-most-one-binding
invariant for `(tenant_id, 'notion', token)`, running the
authorization-completion path twice with the same response body and
identical search results leaves exactly one binding for that triple — an
insert (or in-place update) followed by an in-place update, never a second
insert — and its `source_info` is the `source_info` built from the latest
run's normalization output. -/
theorem c3_double_authorization_single_binding
    (tenant_id id1 id2 : String) (kvs : List (String × Json))
    {prs drs pages : List Json} {db : List DataSourceBinding}
    (htruthy : ((Json.obj kvs).pygetD "access_token").truthy = true)
    (hpages : get_authorized_pages prs drs = Except.ok pages)
    (hle : (db.filter (tokenPred tenant_id ((Json.obj kvs).pygetD "access_token"))).length ≤ 1) :
    ∃ db1 db2,
      get_access_token tenant_id id1 (.obj kvs) prs drs db = Except.ok db1 ∧
      get_access_token tenant_id id2 (.obj kvs) prs drs db1 = Except.ok db2 ∧
      (db2.filter (tokenPred tenant_id ((Json.obj kvs).pygetD "access_token"))).length = 1 ∧
      ∀ b ∈ db2.filter (tokenPred tenant_id ((Json.obj kvs).pygetD "access_token")),
        b.source_info = tokenSourceInfo kvs pages := by
  cases hfil : db.filter (tokenPred tenant_id ((Json.obj kvs).pygetD "access_token")) with
  | nil =>
      have hnone : ∀ b ∈ db,
          tokenPred tenant_id ((Json.obj kvs).pygetD "access_token") b = false := by
        intro b hb
        simpa using List.filter_eq_nil_iff.mp hfil b hb
      have hfind1 : db.find? (tokenPred tenant_id ((Json.obj kvs).pygetD "access_token")) = none :=
        List.find?_eq_none.mpr (fun b hb => by simp [hnone b hb])
      have h1 := get_access_token_insert tenant_id id1 kvs htruthy hpages hfind1
      have hpnb := tokenPred_newBinding tenant_id id1 kvs pages
      have hfind2 : (db ++ [newBinding tenant_id id1 kvs pages]).find?
          (tokenPred tenant_id ((Json.obj kvs).pygetD "access_token")) =
          some (newBinding tenant_id id1 kvs pages) := by
        rw [find?_append_right _ _ hnone]
        simp [List.find?, hpnb]
      have h2 := get_access_token_update tenant_id id2 kvs htruthy hpages hfind2
      have hup : updateFirst (tokenPred tenant_id ((Json.obj kvs).pygetD "access_token"))
          (fun c => { c with source_info := tokenSourceInfo kvs pages, disabled := false })
          (db ++ [newBinding tenant_id id1 kvs pages]) =
          db ++ [{ newBinding tenant_id id1 kvs pages with source_info := tokenSourceInfo kvs pages, disabled := false }] := by
        rw [updateFirst_append _ _ _ hnone]
        simp [updateFirst, hpnb]
      have hpupd : tokenPred tenant_id ((Json.obj kvs).pygetD "access_token")
          { newBinding tenant_id id1 kvs pages with source_info := tokenSourceInfo kvs pages, disabled := false } = true := by
        rw [tokenPred_updated]
        exact hpnb
      have hfilter : (db ++ [{ newBinding tenant_id id1 kvs pages with source_info := tokenSourceInfo kvs pages, disabled := false }]).filter
          (tokenPred tenant_id ((Json.obj kvs).pygetD "access_token")) =
          [{ newBinding tenant_id id1 kvs pages with source_info := tokenSourceInfo kvs pages, disabled := false }] := by
        rw [List.filter_append, hfil]
        simp [List.filter, hpupd]
      refine ⟨db ++ [newBinding tenant_id id1 kvs pages],
        db ++ [{ newBinding tenant_id id1 kvs pages with source_info := tokenSourceInfo kvs pages, disabled := false }],
        h1, ?_, ?_, ?_⟩
      · rw [h2, hup]
      · rw [hfilter]
        rfl
      · rw [hfilter]
        intro b hb
        rcases List.mem_singleton.mp hb with rfl
        rfl
  | cons x xs =>
      have hxs : xs = [] := by
        rw [hfil, List.length_cons] at hle
        exact List.eq_nil_of_length_eq_zero (by omega)
      subst hxs
      have hfind1 : db.find? (tokenPred tenant_id ((Json.obj kvs).pygetD "access_token")) =
          some x := by
        rw [find?_eq_filter_head?, hfil]
        rfl
      have h1 := get_access_token_update tenant_id id1 kvs htruthy hpages hfind1
      have hf1 := filter_updateFirst_cons
        (fun c => { c with source_info := tokenSourceInfo kvs pages, disabled := false })
        (fun c => tokenPred_updated tenant_id ((Json.obj kvs).pygetD "access_token") c
          (tokenSourceInfo kvs pages)) hfil
      have hfind2 : (updateFirst (tokenPred tenant_id ((Json.obj kvs).pygetD "access_token"))
          (fun c => { c with source_info := tokenSourceInfo kvs pages, disabled := false })
          db).find? (tokenPred tenant_id ((Json.obj kvs).pygetD "access_token")) =
          some { x with source_info := tokenSourceInfo kvs pages, disabled := false } := by
        rw [find?_eq_filter_head?, hf1]
        rfl
      have h2 := get_access_token_update tenant_id id2 kvs htruthy hpages hfind2
      have hf2 := filter_updateFirst_cons
        (fun c => { c with source_info := tokenSourceInfo kvs pages, disabled := false })
        (fun c => tokenPred_updated tenant_id ((Json.obj kvs).pygetD "access_token") c
          (tokenSourceInfo kvs pages)) hf1
      refine ⟨_, _, h1, h2, ?_, ?_⟩
      · rw [hf2]
        rfl
      · rw [hf2]
        intro b hb
        rcases List.mem_singleton.mp hb with rfl
        rfl

/-- Witness for C3: two authorizations with token `tok` on an initially
empty store, page search returning one page and database search nothing. -/
theorem c3_double_authorization_single_binding_witness :
    (([] : List DataSourceBinding).filter
      (tokenPred "t1" ((Json.obj [("access_token", Json.str "tok")]).pygetD "access_token"))).length ≤ 1 ∧
    ∃ db1 db2,
      get_access_token "t1" "i1" (.obj [("access_token", .str "tok")]) [samplePage] [] [] = Except.ok db1 ∧
      get_access_token "t1" "i2" (.obj [("access_token", .str "tok")]) [samplePage] [] db1 = Except.ok db2 ∧
      (db2.filter (tokenPred "t1" ((Json.obj [("access_token", Json.str "tok")]).pygetD "access_token"))).length = 1 ∧
      ∀ b ∈ db2.filter (tokenPred "t1" ((Json.obj [("access_token", Json.str "tok")]).pygetD "access_token")),
        b.source_info = tokenSourceInfo [("access_token", Json.str "tok")] [sampleDescP1] :=
  ⟨by simp, c3_double_authorization_single_binding "t1" "i1" "i2"
      [("access_token", Json.str "tok")] rfl rfl (by simp)⟩

/-- The token-endpoint response of the end-to-end scenario. -/
def c8resp : Json := .obj [("access_token", .str "tok"),
  ("workspace_name", .str "Acme"), ("workspace_id", .str "w1")]

/-- The binding the end-to-end scenario persists. -/
def c8Binding : DataSourceBinding :=
  { id := "b1", tenant_id := "t1", provider := "notion",
    access_token := .str "tok",
    source_info := .obj [("workspace_name", .str "Acme"), ("workspace_icon", .null),
      ("workspace_id", .str "w1"), ("pages", .arr [sampleDescP1, sampleDescD1]),
      ("total", .num 2)],
    disabled := false }

/-- C8: with a token exchange returning token `tok` for workspace `Acme`
(id `w1`), a page search returning one untitled root page and a database
search returning one named database under it, `get_access_token` persists
exactly one binding whose `source_info` has `total = 2`, a `page`
descriptor first and a `database` descriptor second. -/
theorem c8_end_to_end_scenario :
    ∃ b p0 p1, get_access_token "t1" "b1" c8resp [samplePage] [sampleDatabase] [] =
        Except.ok [b] ∧
      b.source_info.pygetD "total" = Json.num 2 ∧
      b.source_info.pygetD "pages" = Json.arr [p0, p1] ∧
      p0.pygetD "type" = Json.str "page" ∧
      p1.pygetD "type" = Json.str "database" :=
  ⟨c8Binding, sampleDescP1, sampleDescD1, rfl, rfl, rfl, rfl, rfl⟩

/-! Claim C10: every stored `source_info` keeps `total` equal to the length
of `pages`. -/

theorem setItem_ok {j j2 : Json} {k : String} {v : Json}
    (h : j.setItem k v = Except.ok j2) :
    ∃ fs, j = .obj fs ∧ j2 = .obj (setFields k v fs) := by
  cases j <;> simp [Json.setItem] at h
  exact ⟨_, rfl, h.symm⟩

theorem totalInvariant_mkSourceInfo (wn wi wid : Json) (pages : List Json) :
    totalInvariant (mkSourceInfo wn wi wid pages) = true := by
  simp [totalInvariant, mkSourceInfo, Json.pyget, List.find?]

theorem totalInvariant_setFields (fs : List (String × Json)) (pages : List Json) :
    totalInvariant (.obj (setFields "total" (.num pages.length)
      (setFields "pages" (.arr pages) fs))) = true := by
  have h1 : (Json.obj (setFields "total" (.num pages.length)
      (setFields "pages" (.arr pages) fs))).pyget "pages" =
      Except.ok (.arr pages) := by
    rw [pyget_obj, setFields_find_other "total" "pages" _ (by decide),
      setFields_find_same]
  have h2 : (Json.obj (setFields "total" (.num pages.length)
      (setFields "pages" (.arr pages) fs))).pyget "total" =
      Except.ok (.num pages.length) := by
    rw [pyget_obj, setFields_find_same]
  simp [totalInvariant, h1, h2]

/-- C10: whenever either entry point succeeds, every binding of the
resulting store is either an untouched binding of the old store or carries
a freshly written `source_info` whose `total` field equals the length of
its `pages` field. -/
theorem c10_total_equals_pages_length :
    (∀ (tenant_id new_id : String) (rj : Json) (prs drs : List Json)
        (db db2 : List DataSourceBinding),
      get_access_token tenant_id new_id rj prs drs db = Except.ok db2 →
      ∀ b ∈ db2, b ∈ db ∨ totalInvariant b.source_info = true) ∧
    (∀ (tenant_id binding_id : String) (prs drs : List Json)
        (db db2 : List DataSourceBinding),
      sync_data_source tenant_id binding_id prs drs db = Except.ok db2 →
      ∀ b ∈ db2, b ∈ db ∨ totalInvariant b.source_info = true) := by
  constructor
  · intro tenant_id new_id rj prs drs db db2 h b hb
    simp only [get_access_token, ebind_ok, emapError_ok, epure_ok] at h
    obtain ⟨tok, htok, h⟩ := h
    cases ht : tok.truthy with
    | false => simp [ht, ethrow_eq, error_bind] at h
    | true =>
        simp only [ht, Bool.not_true, Bool.false_eq_true, if_false, ok_bind,
          ebind_ok, emapError_ok, epure_ok] at h
        obtain ⟨-, -, wn, -, wi, -, wid, -, pages, -, h⟩ := h
        cases hf : db.find? (tokenPred tenant_id tok) with
        | some b0 =>
            rw [hf] at h
            simp only [epure_ok] at h
            subst h
            rcases mem_updateFirst hb with hmem | ⟨c, -, rfl⟩
            · exact Or.inl hmem
            · exact Or.inr (totalInvariant_mkSourceInfo wn wi wid pages)
        | none =>
            rw [hf] at h
            simp only [epure_ok] at h
            subst h
            rcases List.mem_append.mp hb with hmem | hmem
            · exact Or.inl hmem
            · rcases List.mem_singleton.mp hmem with rfl
              exact Or.inr (totalInvariant_mkSourceInfo wn wi wid pages)
  · intro tenant_id binding_id prs drs db db2 h b hb
    unfold sync_data_source at h
    cases hf : db.find? (syncPred tenant_id binding_id) with
    | none => rw [hf] at h; simp [ethrow_eq] at h
    | some b0 =>
        rw [hf] at h
        simp only [ebind_ok, emapError_ok, epure_ok] at h
        obtain ⟨pages, -, si1, hsi1, si2, hsi2, h⟩ := h
        obtain ⟨fs, -, rfl⟩ := setItem_ok hsi1
        obtain ⟨fs2, hfs2, rfl⟩ := setItem_ok hsi2
        subst h
        rcases mem_updateFirst hb with hmem | ⟨c, -, rfl⟩
        · exact Or.inl hmem
        · refine Or.inr ?_
          have hre : fs2 = setFields "pages" (.arr pages) fs := by
            injection hfs2 with hh
            exact hh.symm
          simp only [hre]
          exact totalInvariant_setFields fs pages

/-- The row `sampleBinding` becomes after a resync with empty search
results: `pages` and `total` overwritten in place, the rest kept. -/
def sampleBindingSynced : DataSourceBinding :=
  { id := "b1", tenant_id := "t1", provider := "notion",
    access_token := .str "tok",
    source_info := .obj [("workspace_name", .str "Acme"), ("workspace_icon", .null),
      ("workspace_id", .str "w1"), ("pages", .arr []), ("total", .num 0)],
    disabled := false }

/-- Witness for C10: one successful authorization on an empty store and one
successful resync of `sampleBinding`, both leaving only stores whose fresh
rows satisfy the invariant. -/
theorem c10_total_equals_pages_length_witness :
    (∀ b ∈ [c8Binding], b ∈ ([] : List DataSourceBinding) ∨
      totalInvariant b.source_info = true) ∧
    (∀ b ∈ [sampleBindingSynced], b ∈ [sampleBinding] ∨
      totalInvariant b.source_info = true) :=
  ⟨c10_total_equals_pages_length.1 "t1" "b1" c8resp [samplePage] [sampleDatabase]
      [] [c8Binding] rfl,
    c10_total_equals_pages_length.2 "t1" "b1" [] [] [sampleBinding]
      [sampleBindingSynced] rfl⟩
